import Mathlib

/-!
Shallow embedding of `drivers/watchdog/bflb_wdt.c` (BL808 watchdog driver).

The register block is modelled as a function from byte offsets to stored
values; `writew`/`writel` mask the stored value to the access width (16 or
32 bits) and `readw`/`readl` mask on the way out, mirroring MMIO access
widths.  Every driver operation is a pure function from the driver state
(the `watchdog_device` fields it uses plus the register block) to its C
return value, the new state, and a trace of the register accesses it
performed, in program order.  Trace events record the unmasked value passed
to the write, exactly as in the C source.
-/

namespace BflbWdt

/-- C macro `BFLB_INT_TICKS_PER_SEC`. -/
def BFLB_INT_TICKS_PER_SEC : Nat := 1024

/-- C macro `BFLB_TICK_DIV`. -/
def BFLB_TICK_DIV : Nat := 256

/-- C macro `BFLB_TICKS_PER_SEC = BFLB_INT_TICKS_PER_SEC / BFLB_TICK_DIV`. -/
def BFLB_TICKS_PER_SEC : Nat := BFLB_INT_TICKS_PER_SEC / BFLB_TICK_DIV

/-- C macro `BFLB_MAX_SECS = 65535 / BFLB_TICKS_PER_SEC`. -/
def BFLB_MAX_SECS : Nat := 65535 / BFLB_TICKS_PER_SEC

/-- C macro `BFLB_DEFAULT_TIMEOUT`. -/
def BFLB_DEFAULT_TIMEOUT : Nat := 60

/-- C macro `BFLB_REG_WFAR` (first unlock register offset). -/
def BFLB_REG_WFAR : Nat := 0x9C

/-- C macro `BFLB_VAL_WFAR` (first unlock magic). -/
def BFLB_VAL_WFAR : Nat := 0xBABA

/-- C macro `BFLB_REG_WSAR` (second unlock register offset). -/
def BFLB_REG_WSAR : Nat := 0xA0

/-- C macro `BFLB_VAL_WSAR` (second unlock magic). -/
def BFLB_VAL_WSAR : Nat := 0xEB10

/-- C macro `BFLB_REG_WVR` (live elapsed-tick counter, read-only). -/
def BFLB_REG_WVR : Nat := 0x6C

/-- C macro `BFLB_REG_WCR` (watchdog reset/ping register). -/
def BFLB_REG_WCR : Nat := 0x98

/-- C macro `BFLB_VAL_WCR` (counter-reset bit). -/
def BFLB_VAL_WCR : Nat := 0x1

/-- C macro `BFLB_REG_WMER` (watchdog mode/enable register). -/
def BFLB_REG_WMER : Nat := 0x64

/-- C macro `BFLB_VAL_WE` (watchdog enable bit). -/
def BFLB_VAL_WE : Nat := 0x1

/-- C macro `BFLB_VAL_WRIE` (watchdog reset-interrupt-enable bit). -/
def BFLB_VAL_WRIE : Nat := 0x2

/-- C macro `BFLB_REG_TCCR` (timer clock-source register). -/
def BFLB_REG_TCCR : Nat := 0x00

/-- C macro `BFLB_MASK_CS_WDT` (clock-select field, bits 8-11). -/
def BFLB_MASK_CS_WDT : Nat := 0xF00

/-- C macro `BFLB_VAL_CS_1K` (internal 1 kHz clock-select encoding). -/
def BFLB_VAL_CS_1K : Nat := 0x200

/-- C macro `BFLB_REG_TCDR` (timer pre-divider register). -/
def BFLB_REG_TCDR : Nat := 0xbc

/-- C macro `BFLB_MASK_TCDR` (pre-divider field, top byte). -/
def BFLB_MASK_TCDR : Nat := 0xFF000000

/-- C macro `BFLB_VAL_TCDR` (maximal pre-divider value 0xFF in the top byte). -/
def BFLB_VAL_TCDR : Nat := 0xFF000000

/-- C macro `BFLB_REG_WMR` (watchdog match/timeout register). -/
def BFLB_REG_WMR : Nat := 0x68

/-- The register block: stored value at each byte offset. -/
abbrev Regs := Nat → Nat

/-- C `~` complement on a 32-bit quantity: bitwise complement within 32 bits. -/
def not32 (m : Nat) : Nat := (2 ^ 32 - 1) ^^^ (m % 2 ^ 32)

/-- `writew`: store a value at an offset, truncated to 16 bits. -/
def writew (s : Regs) (off v : Nat) : Regs :=
  fun o => if o = off then v % 2 ^ 16 else s o

/-- `writel`: store a value at an offset, truncated to 32 bits. -/
def writel (s : Regs) (off v : Nat) : Regs :=
  fun o => if o = off then v % 2 ^ 32 else s o

/-- `readw`: 16-bit read of the stored value at an offset. -/
def readw (s : Regs) (off : Nat) : Nat := s off % 2 ^ 16

/-- `readl`: 32-bit read of the stored value at an offset. -/
def readl (s : Regs) (off : Nat) : Nat := s off % 2 ^ 32

/-- One MMIO access, as it appears in program order. Write events carry the
value handed to the bus write (before width truncation), as in the C code. -/
inductive Event where
  | readE (off : Nat)
  | writeE (off : Nat) (val : Nat)
deriving DecidableEq, Repr

/-- The `watchdog_device` fields the driver reads or writes. -/
structure WatchdogDevice where
  timeout : Nat
  max_timeout : Nat
  min_timeout : Nat
deriving DecidableEq, Repr

/-- Driver state: the `watchdog_device` plus the mapped register block. -/
structure DriverState where
  wdd : WatchdogDevice
  regs : Regs

/-- Result of an operation: C return value, new driver state, access trace. -/
structure OpOut where
  ret : Nat
  st : DriverState
  trace : List Event

/-- Result of `bflb_wdt_set_timeout`: additionally records whether the
`dev_warn` clamp warning fired. -/
structure SetTimeoutOut where
  ret : Nat
  warned : Bool
  st : DriverState
  trace : List Event

/-- C `bflb_unlock_watchdog`: write the two unlock magics, WFAR then WSAR. -/
def bflb_unlock_watchdog (s : Regs) : Regs × List Event :=
  let s1 := writew s BFLB_REG_WFAR BFLB_VAL_WFAR
  let s2 := writew s1 BFLB_REG_WSAR BFLB_VAL_WSAR
  (s2, [Event.writeE BFLB_REG_WFAR BFLB_VAL_WFAR,
        Event.writeE BFLB_REG_WSAR BFLB_VAL_WSAR])

/-- C `bflb_wdt_ping`: unlock, then read-modify-write WCR setting the
counter-reset bit. Returns 0. -/
def bflb_wdt_ping (st : DriverState) : OpOut :=
  let u := bflb_unlock_watchdog st.regs
  let reg_val := readl u.1 BFLB_REG_WCR
  let reg_val2 := reg_val ||| BFLB_VAL_WCR
  { ret := 0
    st := { wdd := st.wdd, regs := writel u.1 BFLB_REG_WCR reg_val2 }
    trace := u.2 ++ [Event.readE BFLB_REG_WCR, Event.writeE BFLB_REG_WCR reg_val2] }

/-- C `bflb_wdt_update_timeout_reg`: unlock, then write
`timeout * BFLB_TICKS_PER_SEC` to the 16-bit match register. -/
def bflb_wdt_update_timeout_reg (st : DriverState) : DriverState × List Event :=
  let u := bflb_unlock_watchdog st.regs
  let timeout_ticks := st.wdd.timeout * BFLB_TICKS_PER_SEC
  ({ wdd := st.wdd, regs := writew u.1 BFLB_REG_WMR timeout_ticks },
   u.2 ++ [Event.writeE BFLB_REG_WMR timeout_ticks])

/-- C `bflb_wdt_set_timeout`: clamp to `max_timeout` (with a warning) when
`timeout >= max_timeout`, store the result in `wdd->timeout`, update the
match register, return 0. -/
def bflb_wdt_set_timeout (st : DriverState) (timeout : Nat) : SetTimeoutOut :=
  let warned := decide (st.wdd.max_timeout ≤ timeout)
  let timeout2 := if st.wdd.max_timeout ≤ timeout then st.wdd.max_timeout else timeout
  let st2 : DriverState :=
    { wdd := { st.wdd with timeout := timeout2 }, regs := st.regs }
  let upd := bflb_wdt_update_timeout_reg st2
  { ret := 0, warned := warned, st := upd.1, trace := upd.2 }

/-- C `bflb_wdt_start`: unlock, then read-modify-write WMER setting the
enable bit. Returns 0. -/
def bflb_wdt_start (st : DriverState) : OpOut :=
  let u := bflb_unlock_watchdog st.regs
  let reg_val := readl u.1 BFLB_REG_WMER
  let reg_val2 := reg_val ||| BFLB_VAL_WE
  { ret := 0
    st := { wdd := st.wdd, regs := writel u.1 BFLB_REG_WMER reg_val2 }
    trace := u.2 ++ [Event.readE BFLB_REG_WMER, Event.writeE BFLB_REG_WMER reg_val2] }

/-- C `bflb_wdt_stop`: unlock, then read-modify-write WMER clearing the
enable bit (`reg_val &= ~BFLB_VAL_WE`). Returns 0. -/
def bflb_wdt_stop (st : DriverState) : OpOut :=
  let u := bflb_unlock_watchdog st.regs
  let reg_val := readl u.1 BFLB_REG_WMER
  let reg_val2 := reg_val &&& not32 BFLB_VAL_WE
  { ret := 0
    st := { wdd := st.wdd, regs := writel u.1 BFLB_REG_WMER reg_val2 }
    trace := u.2 ++ [Event.readE BFLB_REG_WMER, Event.writeE BFLB_REG_WMER reg_val2] }

/-- C `bflb_wdt_timeleft`: plain 16-bit read of the elapsed-tick counter,
`used_seconds = ticks / BFLB_TICKS_PER_SEC`, then the unsigned 32-bit
subtraction `wdd->max_timeout - used_seconds` (modelled with its potential
wraparound made explicit). -/
def bflb_wdt_timeleft (st : DriverState) : OpOut :=
  let ticks := readw st.regs BFLB_REG_WVR
  let used_seconds := ticks / BFLB_TICKS_PER_SEC
  let remaining_seconds := (st.wdd.max_timeout + 2 ^ 32 - used_seconds) % 2 ^ 32
  { ret := remaining_seconds, st := st, trace := [Event.readE BFLB_REG_WVR] }

/-- C `bflb_wdt_probe`, register-setup portion: set up the
`watchdog_device` fields, then unlock once and program WMER to
{disabled, reset-interrupt-enabled}, select the internal 1 kHz clock in
TCCR, max out the pre-divider in TCDR, and finally write the match
register via `bflb_wdt_update_timeout_reg`. -/
def bflb_wdt_probe (s : Regs) : OpOut :=
  let wdd : WatchdogDevice :=
    { timeout := BFLB_DEFAULT_TIMEOUT
      max_timeout := BFLB_MAX_SECS
      min_timeout := 1 }
  let u := bflb_unlock_watchdog s
  let r1 := readl u.1 BFLB_REG_WMER
  let r1b := (r1 &&& not32 BFLB_VAL_WE) ||| BFLB_VAL_WRIE
  let s2 := writel u.1 BFLB_REG_WMER r1b
  let r2 := readl s2 BFLB_REG_TCCR
  let r2b := (r2 &&& not32 BFLB_MASK_CS_WDT) ||| BFLB_VAL_CS_1K
  let s3 := writel s2 BFLB_REG_TCCR r2b
  let r3 := readl s3 BFLB_REG_TCDR
  let r3b := (r3 &&& not32 BFLB_MASK_TCDR) ||| BFLB_VAL_TCDR
  let s4 := writel s3 BFLB_REG_TCDR r3b
  let upd := bflb_wdt_update_timeout_reg { wdd := wdd, regs := s4 }
  { ret := 0
    st := upd.1
    trace := u.2 ++
      [Event.readE BFLB_REG_WMER, Event.writeE BFLB_REG_WMER r1b,
       Event.readE BFLB_REG_TCCR, Event.writeE BFLB_REG_TCCR r2b,
       Event.readE BFLB_REG_TCDR, Event.writeE BFLB_REG_TCDR r3b] ++ upd.2 }

/-- Lock state of the hardware write-protect machinery: `locked` (no magic
seen), `armed` (WFAR magic written, waiting for WSAR magic), `unlocked`
(one protected write permitted). -/
inductive LockState where
  | locked
  | armed
  | unlocked
deriving DecidableEq, Repr

/-- The watchdog registers guarded by the write-protect machinery. -/
def wdtProtectedRegs : List Nat := [BFLB_REG_WMER, BFLB_REG_WMR, BFLB_REG_WCR]

/-- The registers the claim lists as protected: the watchdog registers plus
the timer clock-source and pre-divider registers. -/
def claimProtectedRegs : List Nat :=
  [BFLB_REG_WMER, BFLB_REG_WMR, BFLB_REG_WCR, BFLB_REG_TCCR, BFLB_REG_TCDR]

/-- One step of the lock automaton: the WFAR magic arms, the WSAR magic
(when armed) unlocks, a protected write consumes the unlock (the hardware
auto-relocks after one protected write) and is a violation (`none`) when
not unlocked; reads and unprotected writes leave the state unchanged. -/
def lockStep (prot : List Nat) (st : LockState) : Event → Option LockState
  | Event.readE _ => some st
  | Event.writeE off v =>
    if off = BFLB_REG_WFAR then
      (if v = BFLB_VAL_WFAR then some LockState.armed else some LockState.locked)
    else if off = BFLB_REG_WSAR then
      (if st = LockState.armed ∧ v = BFLB_VAL_WSAR then some LockState.unlocked
       else some LockState.locked)
    else if off ∈ prot then
      (if st = LockState.unlocked then some LockState.locked else none)
    else some st

/-- Run the lock automaton over a trace; `false` iff some protected write
happens while not freshly unlocked. -/
def runLock (prot : List Nat) (st : LockState) : List Event → Bool
  | [] => true
  | e :: es =>
    match lockStep prot st e with
    | none => false
    | some st2 => runLock prot st2 es

/-- The all-zero register block, used as a concrete starting point. -/
def zeroRegs : Regs := fun _ => 0

/-- The driver state right after `bflb_wdt_probe` on an all-zero register
block. -/
def probedState : DriverState := (bflb_wdt_probe zeroRegs).st

/-! ### Bit-level helper lemmas -/

theorem testBit_not32 (m i : Nat) :
    (not32 m).testBit i = (decide (i < 32) && !((m % 2 ^ 32).testBit i)) := by
  unfold not32
  rw [Nat.testBit_xor, Nat.testBit_two_pow_sub_one]
  rcases Nat.lt_or_ge i 32 with h | h
  · simp [h]
  · have hpow : (4294967296 : Nat) ≤ 2 ^ i := by
      calc (4294967296 : Nat) = 2 ^ 32 := by norm_num
        _ ≤ 2 ^ i := Nat.pow_le_pow_right (by norm_num) h
    have h2 : (m % 4294967296).testBit i = false :=
      Nat.testBit_lt_two_pow (lt_of_lt_of_le (Nat.mod_lt _ (by norm_num)) hpow)
    simp [h2, Nat.not_lt.2 h]

theorem and_not32_lt (x m : Nat) (hx : x < 2 ^ 32) : x &&& not32 m < 2 ^ 32 :=
  Nat.lt_of_le_of_lt Nat.and_le_left hx

theorem or_and_not32 (x m : Nat) : (x ||| m) &&& not32 m = x &&& not32 m := by
  apply Nat.eq_of_testBit_eq
  intro i
  simp only [Nat.testBit_or, Nat.testBit_and, testBit_not32, Nat.testBit_mod_two_pow]
  rcases Nat.lt_or_ge i 32 with h | h
  · cases hm : m.testBit i <;> simp [h, hm]
  · simp [Nat.not_lt.2 h]

theorem masked_or_field (y m v : Nat) (hm : m < 2 ^ 32) (hv : v &&& m = v) :
    ((y &&& not32 m) ||| v) &&& m = v := by
  apply Nat.eq_of_testBit_eq
  intro i
  have hvb : (v.testBit i && m.testBit i) = v.testBit i := by
    rw [← Nat.testBit_and, hv]
  simp only [Nat.testBit_and, Nat.testBit_or, testBit_not32, Nat.mod_eq_of_lt hm]
  cases hmb : m.testBit i
  · rw [hmb] at hvb
    simp at hvb
    simp [hvb]
  · simp [hmb]

theorem masked_or_frame (y m v : Nat) (hv : v &&& not32 m = 0) :
    ((y &&& not32 m) ||| v) &&& not32 m = y &&& not32 m := by
  apply Nat.eq_of_testBit_eq
  intro i
  have hvb : (v.testBit i && (not32 m).testBit i) = false := by
    rw [← Nat.testBit_and, hv, Nat.zero_testBit]
  simp only [Nat.testBit_and, Nat.testBit_or]
  cases hnb : (not32 m).testBit i
  · simp
  · rw [hnb] at hvb
    simp at hvb
    simp [hvb]

theorem lor_one_idem (a : Nat) : (a ||| 1) ||| 1 = a ||| 1 := by
  apply Nat.eq_of_testBit_eq
  intro i
  simp [Bool.or_assoc]

theorem and_not32_self (m : Nat) : m &&& not32 m = 0 := by
  apply Nat.eq_of_testBit_eq
  intro i
  simp only [Nat.testBit_and, testBit_not32, Nat.zero_testBit, Nat.testBit_mod_two_pow]
  rcases Nat.lt_or_ge i 32 with h | h
  · cases hm : m.testBit i <;> simp [h, hm]
  · simp [Nat.not_lt.2 h]

theorem testBit_ge32 (y i : Nat) (hy : y < 2 ^ 32) (h : 32 ≤ i) : y.testBit i = false :=
  Nat.testBit_lt_two_pow (lt_of_lt_of_le hy (Nat.pow_le_pow_right (by norm_num) h))

theorem testBit_and_not32_one_zero (y : Nat) : (y &&& not32 1).testBit 0 = false := by
  simp only [Nat.testBit_and, testBit_not32]
  have h1 : ((1 : Nat) % 2 ^ 32).testBit 0 = true := by decide
  rw [h1]
  simp

theorem testBit_and_not32_one_ne (y i : Nat) (hy : y < 2 ^ 32) (hi : i ≠ 0) :
    (y &&& not32 1).testBit i = y.testBit i := by
  simp only [Nat.testBit_and, testBit_not32]
  rcases Nat.lt_or_ge i 32 with h | h
  · have h1 : (1 : Nat).testBit i = false := by
      rw [show (1 : Nat) = 2 ^ 0 by norm_num, Nat.testBit_two_pow]
      simp [Ne.symm hi]
    rw [Nat.mod_eq_of_lt (by norm_num), h1]
    simp [h]
  · simp [Nat.not_lt.2 h, testBit_ge32 y i hy h]

theorem mod32_and_not32 (x m : Nat) :
    (x % 2 ^ 32 &&& not32 m) % 2 ^ 32 = x % 2 ^ 32 &&& not32 m :=
  Nat.mod_eq_of_lt (and_not32_lt _ _ (Nat.mod_lt _ (by norm_num)))

theorem mod32_or_lt (x v : Nat) (hv : v < 2 ^ 32) :
    (x % 2 ^ 32 ||| v) % 2 ^ 32 = x % 2 ^ 32 ||| v :=
  Nat.mod_eq_of_lt (Nat.or_lt_two_pow (Nat.mod_lt _ (by norm_num)) hv)

theorem mod32_and_or (x m v : Nat) (hv : v < 2 ^ 32) :
    ((x % 2 ^ 32 &&& not32 m) ||| v) % 2 ^ 32 = (x % 2 ^ 32 &&& not32 m) ||| v :=
  Nat.mod_eq_of_lt
    (Nat.or_lt_two_pow (and_not32_lt _ _ (Nat.mod_lt _ (by norm_num))) hv)

theorem lit_eq_pow32 : (4294967296 : Nat) = 2 ^ 32 := by norm_num

theorem mod32_and_not32_lit (x m : Nat) :
    (x % 4294967296 &&& not32 m) % 4294967296 = x % 4294967296 &&& not32 m := by
  apply Nat.mod_eq_of_lt
  exact Nat.lt_of_le_of_lt Nat.and_le_left (Nat.mod_lt _ (by norm_num))

theorem mod32_or_lit (x v : Nat) (hv : v < 4294967296) :
    (x % 4294967296 ||| v) % 4294967296 = x % 4294967296 ||| v := by
  apply Nat.mod_eq_of_lt
  rw [lit_eq_pow32] at hv ⊢
  exact Nat.or_lt_two_pow (Nat.mod_lt _ (by norm_num)) hv

theorem mod32_and_or_lit (x m v : Nat) (hv : v < 4294967296) :
    ((x % 4294967296 &&& not32 m) ||| v) % 4294967296
      = (x % 4294967296 &&& not32 m) ||| v := by
  apply Nat.mod_eq_of_lt
  rw [lit_eq_pow32] at hv ⊢
  exact Nat.or_lt_two_pow
    (Nat.lt_of_le_of_lt Nat.and_le_left (Nat.mod_lt _ (by norm_num))) hv

/-! ### Register values after each operation -/

theorem stop_wmer (st : DriverState) :
    (bflb_wdt_stop st).st.regs BFLB_REG_WMER =
      st.regs BFLB_REG_WMER % 2 ^ 32 &&& not32 BFLB_VAL_WE := by
  simp [bflb_wdt_stop, bflb_unlock_watchdog, writew, writel, readl,
    BFLB_REG_WMER, BFLB_REG_WFAR, BFLB_REG_WSAR, BFLB_VAL_WE, mod32_and_not32_lit]

theorem start_wmer (st : DriverState) :
    (bflb_wdt_start st).st.regs BFLB_REG_WMER =
      st.regs BFLB_REG_WMER % 2 ^ 32 ||| BFLB_VAL_WE := by
  simp [bflb_wdt_start, bflb_unlock_watchdog, writew, writel, readl,
    BFLB_REG_WMER, BFLB_REG_WFAR, BFLB_REG_WSAR, BFLB_VAL_WE,
    mod32_or_lit _ 1 (by norm_num)]

theorem ping_wcr (st : DriverState) :
    (bflb_wdt_ping st).st.regs BFLB_REG_WCR =
      st.regs BFLB_REG_WCR % 2 ^ 32 ||| BFLB_VAL_WCR := by
  simp [bflb_wdt_ping, bflb_unlock_watchdog, writew, writel, readl,
    BFLB_REG_WCR, BFLB_REG_WFAR, BFLB_REG_WSAR, BFLB_VAL_WCR,
    mod32_or_lit _ 1 (by norm_num)]

theorem probe_wmer (s : Regs) :
    (bflb_wdt_probe s).st.regs BFLB_REG_WMER =
      (s BFLB_REG_WMER % 2 ^ 32 &&& not32 BFLB_VAL_WE) ||| BFLB_VAL_WRIE := by
  simp [bflb_wdt_probe, bflb_wdt_update_timeout_reg, bflb_unlock_watchdog,
    writew, writel, readl, BFLB_REG_WMER, BFLB_REG_WFAR, BFLB_REG_WSAR,
    BFLB_REG_TCCR, BFLB_REG_TCDR, BFLB_REG_WMR, BFLB_VAL_WE, BFLB_VAL_WRIE,
    mod32_and_or_lit _ _ 2 (by norm_num)]

theorem probe_tccr (s : Regs) :
    (bflb_wdt_probe s).st.regs BFLB_REG_TCCR =
      (s BFLB_REG_TCCR % 2 ^ 32 &&& not32 BFLB_MASK_CS_WDT) ||| BFLB_VAL_CS_1K := by
  simp [bflb_wdt_probe, bflb_wdt_update_timeout_reg, bflb_unlock_watchdog,
    writew, writel, readl, BFLB_REG_WMER, BFLB_REG_WFAR, BFLB_REG_WSAR,
    BFLB_REG_TCCR, BFLB_REG_TCDR, BFLB_REG_WMR, BFLB_MASK_CS_WDT, BFLB_VAL_CS_1K,
    mod32_and_or_lit _ _ 512 (by norm_num)]

theorem probe_tcdr (s : Regs) :
    (bflb_wdt_probe s).st.regs BFLB_REG_TCDR =
      (s BFLB_REG_TCDR % 2 ^ 32 &&& not32 BFLB_MASK_TCDR) ||| BFLB_VAL_TCDR := by
  simp [bflb_wdt_probe, bflb_wdt_update_timeout_reg, bflb_unlock_watchdog,
    writew, writel, readl, BFLB_REG_WMER, BFLB_REG_WFAR, BFLB_REG_WSAR,
    BFLB_REG_TCCR, BFLB_REG_TCDR, BFLB_REG_WMR, BFLB_MASK_TCDR, BFLB_VAL_TCDR,
    mod32_and_or_lit _ _ 4278190080 (by norm_num)]

theorem set_timeout_clamp_eq_min (a t : Nat) :
    (if a ≤ t then a else t) = min t a := by
  split <;> omega

/-! ### Claim theorems -/

/-- C1: counterexample.  With the protected-register set the claim asserts
(mode/enable 0x64, match 0x68, ping 0x98, clock-source 0x00, pre-divider
0xBC), the register-access trace of initialization on the all-zero register
block violates the fresh-unlock-before-every-protected-write discipline:
the clock-source write at offset 0x00 is issued while the hardware is
relocked (the single unlock in `bflb_wdt_probe` was already consumed by the
mode-register write). -/
theorem probe_violates_claimed_unlock_discipline :
    runLock claimProtectedRegs LockState.locked (bflb_wdt_probe zeroRegs).trace
      = false := by
  decide

/-- C1 (amended): every write to a protected watchdog register (mode/enable
at 0x64, match at 0x68, ping at 0x98) performed by any operation, including
initialization, is immediately preceded within the same logical operation
by the unlock sequence (0xBABA to 0x9C then 0xEB10 to 0xA0, in that order),
with a fresh unlock before every such write — the lock automaton relocks
after each protected write, so one unlock never covers two protected
writes.  The clock-source (0x00) and pre-divider (0xBC) writes of
initialization are not preceded by an unlock sequence. -/
theorem all_ops_respect_wdt_unlock_discipline (st : DriverState) (t : Nat) :
    runLock wdtProtectedRegs LockState.locked (bflb_wdt_ping st).trace = true ∧
    runLock wdtProtectedRegs LockState.locked (bflb_wdt_start st).trace = true ∧
    runLock wdtProtectedRegs LockState.locked (bflb_wdt_stop st).trace = true ∧
    runLock wdtProtectedRegs LockState.locked (bflb_wdt_set_timeout st t).trace = true ∧
    runLock wdtProtectedRegs LockState.locked (bflb_wdt_timeleft st).trace = true ∧
    runLock wdtProtectedRegs LockState.locked (bflb_wdt_probe st.regs).trace = true := by
  refine ⟨?_, ?_, ?_, ?_, ?_, ?_⟩ <;>
    simp [bflb_wdt_ping, bflb_wdt_start, bflb_wdt_stop, bflb_wdt_set_timeout,
      bflb_wdt_timeleft, bflb_wdt_probe, bflb_wdt_update_timeout_reg,
      bflb_unlock_watchdog, runLock, lockStep, wdtProtectedRegs,
      BFLB_REG_WFAR, BFLB_REG_WSAR, BFLB_VAL_WFAR, BFLB_VAL_WSAR,
      BFLB_REG_WCR, BFLB_REG_WMER, BFLB_REG_WMR, BFLB_REG_TCCR, BFLB_REG_TCDR]

/-- C2: SetTimeout stores min(t, max_timeout) as the current timeout,
clamping (and warning) exactly when t ≥ max_timeout and accepting t
unchanged otherwise; it then writes the stored timeout times
ticks-per-second, masked to 16 bits, into the match register, leaving the
mode/enable register untouched (no Stop/Start cycle involved). -/
theorem set_timeout_stores_min_and_updates_match (st : DriverState) (t : Nat) :
    (bflb_wdt_set_timeout st t).st.wdd.timeout = min t st.wdd.max_timeout ∧
    ((bflb_wdt_set_timeout st t).warned = true ↔ st.wdd.max_timeout ≤ t) ∧
    (bflb_wdt_set_timeout st t).st.regs BFLB_REG_WMR =
      min t st.wdd.max_timeout * BFLB_TICKS_PER_SEC % 2 ^ 16 ∧
    (bflb_wdt_set_timeout st t).st.regs BFLB_REG_WMER = st.regs BFLB_REG_WMER := by
  refine ⟨?_, ?_, ?_, ?_⟩ <;>
    simp [bflb_wdt_set_timeout, bflb_wdt_update_timeout_reg, bflb_unlock_watchdog,
      writew, readl, set_timeout_clamp_eq_min, BFLB_REG_WMR, BFLB_REG_WMER,
      BFLB_REG_WFAR, BFLB_REG_WSAR]

/-- C4: counterexample.  The C return value of SetTimeout is the status
code 0, not the accepted timeout: with max_timeout 16383, requesting 60
seconds accepts 60 but the function returns 0. -/
theorem set_timeout_ret_is_not_accepted_value :
    ¬ ((bflb_wdt_set_timeout probedState 60).ret =
        min 60 probedState.wdd.max_timeout) := by
  decide

/-- C4 (amended): SetTimeout stores the accepted timeout min(t, max_timeout)
in the device's timeout field, where the caller observes it; the function's
return value is the status code 0. -/
theorem set_timeout_ret_zero_and_stores_min (st : DriverState) (t : Nat) :
    (bflb_wdt_set_timeout st t).ret = 0 ∧
    (bflb_wdt_set_timeout st t).st.wdd.timeout = min t st.wdd.max_timeout := by
  constructor
  · rfl
  · simp [bflb_wdt_set_timeout, bflb_wdt_update_timeout_reg, bflb_unlock_watchdog,
      set_timeout_clamp_eq_min]

/-- C5: the derived timing constants are ticks_per_second = 1024/256 = 4,
max_timeout = 65535/4 = 16383, default timeout 60, minimum 1; and for the
concrete scenarios, SetTimeout(60) yields match-register value 240 without
a warning while SetTimeout(20000) clamps to 16383, yields match-register
value 65532, and warns the caller. -/
theorem constants_and_concrete_scenarios :
    BFLB_TICKS_PER_SEC = 4 ∧
    BFLB_MAX_SECS = 16383 ∧
    BFLB_DEFAULT_TIMEOUT = 60 ∧
    probedState.wdd.timeout = 60 ∧
    probedState.wdd.min_timeout = 1 ∧
    probedState.wdd.max_timeout = 16383 ∧
    (bflb_wdt_set_timeout probedState 60).st.wdd.timeout = 60 ∧
    (bflb_wdt_set_timeout probedState 60).st.regs BFLB_REG_WMR = 240 ∧
    (bflb_wdt_set_timeout probedState 60).warned = false ∧
    (bflb_wdt_set_timeout probedState 20000).st.wdd.timeout = 16383 ∧
    (bflb_wdt_set_timeout probedState 20000).st.regs BFLB_REG_WMR = 65532 ∧
    (bflb_wdt_set_timeout probedState 20000).warned = true := by
  decide


/-- C3: GetTimeLeft returns max_timeout minus elapsed-ticks divided by
ticks-per-second (truncating integer division) — computed against
max_timeout, not the configured timeout; in particular with a zero
elapsed-tick counter (as right after Ping) it returns exactly max_timeout
whatever the configured current timeout is. -/
theorem timeleft_is_max_minus_elapsed (st : DriverState)
    (hmax : st.wdd.max_timeout = BFLB_MAX_SECS) :
    (bflb_wdt_timeleft st).ret =
      st.wdd.max_timeout - readw st.regs BFLB_REG_WVR / BFLB_TICKS_PER_SEC ∧
    (readw st.regs BFLB_REG_WVR = 0 →
      (bflb_wdt_timeleft st).ret = st.wdd.max_timeout) := by
  simp only [bflb_wdt_timeleft, readw, hmax, BFLB_MAX_SECS, BFLB_TICKS_PER_SEC,
    BFLB_INT_TICKS_PER_SEC, BFLB_TICK_DIV]
  omega

/-- Witness for C3 at the state produced by initialization. -/
theorem timeleft_is_max_minus_elapsed_witness :
    probedState.wdd.max_timeout = BFLB_MAX_SECS ∧
    ((bflb_wdt_timeleft probedState).ret =
      probedState.wdd.max_timeout -
        readw probedState.regs BFLB_REG_WVR / BFLB_TICKS_PER_SEC ∧
     (readw probedState.regs BFLB_REG_WVR = 0 →
      (bflb_wdt_timeleft probedState).ret = probedState.wdd.max_timeout)) :=
  ⟨by decide, timeleft_is_max_minus_elapsed probedState (by decide)⟩

/-- C6: Stop clears only the watchdog-enable bit (bit 0) of the mode/enable
register and preserves every other bit; Start followed by Stop leaves the
enable bit clear and the reset-interrupt-enable bit (bit 1) equal to its
prior value — in particular still set if it was set. -/
theorem stop_clears_only_enable_bit (st : DriverState) (i : Nat) (hi : i ≠ 0) :
    ((bflb_wdt_stop st).st.regs BFLB_REG_WMER).testBit 0 = false ∧
    ((bflb_wdt_stop st).st.regs BFLB_REG_WMER).testBit i =
      (readl st.regs BFLB_REG_WMER).testBit i ∧
    ((bflb_wdt_stop (bflb_wdt_start st).st).st.regs BFLB_REG_WMER).testBit 0
      = false ∧
    ((bflb_wdt_stop (bflb_wdt_start st).st).st.regs BFLB_REG_WMER).testBit 1 =
      (readl st.regs BFLB_REG_WMER).testBit 1 := by
  have hy : st.regs BFLB_REG_WMER % 2 ^ 32 < 2 ^ 32 := Nat.mod_lt _ (by norm_num)
  have hcomp : (bflb_wdt_stop (bflb_wdt_start st).st).st.regs BFLB_REG_WMER
      = st.regs BFLB_REG_WMER % 2 ^ 32 &&& not32 BFLB_VAL_WE := by
    rw [stop_wmer, start_wmer, mod32_or_lt _ BFLB_VAL_WE (by norm_num [BFLB_VAL_WE])]
    exact or_and_not32 _ _
  refine ⟨?_, ?_, ?_, ?_⟩
  · rw [stop_wmer]
    simp only [BFLB_VAL_WE]
    exact testBit_and_not32_one_zero _
  · rw [stop_wmer]
    simp only [BFLB_VAL_WE, readl]
    exact testBit_and_not32_one_ne _ i hy hi
  · rw [hcomp]
    simp only [BFLB_VAL_WE]
    exact testBit_and_not32_one_zero _
  · rw [hcomp]
    simp only [BFLB_VAL_WE, readl]
    exact testBit_and_not32_one_ne _ 1 hy (by decide)

/-- Witness for C6 at the probed state with bit index 1. -/
theorem stop_clears_only_enable_bit_witness :
    (1 : Nat) ≠ 0 ∧
    (((bflb_wdt_stop probedState).st.regs BFLB_REG_WMER).testBit 0 = false ∧
     ((bflb_wdt_stop probedState).st.regs BFLB_REG_WMER).testBit 1 =
       (readl probedState.regs BFLB_REG_WMER).testBit 1 ∧
     ((bflb_wdt_stop (bflb_wdt_start probedState).st).st.regs
        BFLB_REG_WMER).testBit 0 = false ∧
     ((bflb_wdt_stop (bflb_wdt_start probedState).st).st.regs
        BFLB_REG_WMER).testBit 1 =
       (readl probedState.regs BFLB_REG_WMER).testBit 1) :=
  ⟨by decide, stop_clears_only_enable_bit probedState 1 (by decide)⟩

/-- C7: initialization programs the mode/enable register with the enable
bit cleared (Stopped) and the reset-interrupt-enable bit set, sets the
clock-select field (bits 8-11 of the register at 0x00) to the internal-1kHz
encoding while preserving the other bits, sets the pre-divider field (top
byte of the register at 0xBC) to 0xFF while preserving the other bits, and
as its final register access writes the match register for the current
(default) timeout. -/
theorem probe_programs_registers (s : Regs) :
    ((bflb_wdt_probe s).st.regs BFLB_REG_WMER).testBit 0 = false ∧
    ((bflb_wdt_probe s).st.regs BFLB_REG_WMER).testBit 1 = true ∧
    (bflb_wdt_probe s).st.regs BFLB_REG_TCCR &&& BFLB_MASK_CS_WDT
      = BFLB_VAL_CS_1K ∧
    (bflb_wdt_probe s).st.regs BFLB_REG_TCCR &&& not32 BFLB_MASK_CS_WDT =
      readl s BFLB_REG_TCCR &&& not32 BFLB_MASK_CS_WDT ∧
    (bflb_wdt_probe s).st.regs BFLB_REG_TCDR &&& BFLB_MASK_TCDR
      = BFLB_VAL_TCDR ∧
    (bflb_wdt_probe s).st.regs BFLB_REG_TCDR &&& not32 BFLB_MASK_TCDR =
      readl s BFLB_REG_TCDR &&& not32 BFLB_MASK_TCDR ∧
    (bflb_wdt_probe s).st.regs BFLB_REG_WMR =
      BFLB_DEFAULT_TIMEOUT * BFLB_TICKS_PER_SEC % 2 ^ 16 ∧
    (bflb_wdt_probe s).st.wdd.timeout = BFLB_DEFAULT_TIMEOUT ∧
    (bflb_wdt_probe s).trace.reverse.head? =
      some (Event.writeE BFLB_REG_WMR (BFLB_DEFAULT_TIMEOUT * BFLB_TICKS_PER_SEC)) := by
  have h2zero : (2 : Nat).testBit 0 = false := by decide
  have h2one : (2 : Nat).testBit 1 = true := by decide
  refine ⟨?_, ?_, ?_, ?_, ?_, ?_, ?_, rfl, ?_⟩
  · rw [probe_wmer]
    simp only [BFLB_VAL_WE, BFLB_VAL_WRIE, Nat.testBit_or, h2zero,
      testBit_and_not32_one_zero]
    rfl
  · rw [probe_wmer]
    simp only [BFLB_VAL_WE, BFLB_VAL_WRIE, Nat.testBit_or, h2one, Bool.or_true]
  · rw [probe_tccr]
    simp only [BFLB_MASK_CS_WDT, BFLB_VAL_CS_1K]
    exact masked_or_field _ _ _ (by norm_num) (by decide)
  · rw [probe_tccr]
    simp only [BFLB_MASK_CS_WDT, BFLB_VAL_CS_1K, readl]
    exact masked_or_frame _ _ _ (by decide)
  · rw [probe_tcdr]
    simp only [BFLB_MASK_TCDR, BFLB_VAL_TCDR]
    exact masked_or_field _ _ _ (by norm_num) (by decide)
  · rw [probe_tcdr]
    simp only [BFLB_MASK_TCDR, BFLB_VAL_TCDR, readl]
    exact masked_or_frame _ _ _ (and_not32_self _)
  · simp [bflb_wdt_probe, bflb_wdt_update_timeout_reg, bflb_unlock_watchdog,
      writew, writel, readl, BFLB_REG_WMER, BFLB_REG_WFAR, BFLB_REG_WSAR,
      BFLB_REG_TCCR, BFLB_REG_TCDR, BFLB_REG_WMR, BFLB_DEFAULT_TIMEOUT,
      BFLB_TICKS_PER_SEC, BFLB_INT_TICKS_PER_SEC, BFLB_TICK_DIV]
  · simp [bflb_wdt_probe, bflb_wdt_update_timeout_reg, bflb_unlock_watchdog]

/-- C8: Start is idempotent on the mode/enable register: starting twice
leaves the register exactly as starting once; the single Start sets the
enable bit via read-modify-write and preserves every other bit. -/
theorem start_idempotent (st : DriverState) :
    (bflb_wdt_start (bflb_wdt_start st).st).st.regs BFLB_REG_WMER =
      (bflb_wdt_start st).st.regs BFLB_REG_WMER ∧
    ((bflb_wdt_start st).st.regs BFLB_REG_WMER).testBit 0 = true ∧
    (bflb_wdt_start st).st.regs BFLB_REG_WMER &&& not32 BFLB_VAL_WE =
      readl st.regs BFLB_REG_WMER &&& not32 BFLB_VAL_WE := by
  have h1 : (1 : Nat).testBit 0 = true := by decide
  have hidem : ∀ a : Nat, (a ||| BFLB_VAL_WE) ||| BFLB_VAL_WE = a ||| BFLB_VAL_WE := by
    simp only [BFLB_VAL_WE]
    exact lor_one_idem
  refine ⟨?_, ?_, ?_⟩
  · rw [start_wmer, start_wmer, mod32_or_lt _ BFLB_VAL_WE (by norm_num [BFLB_VAL_WE]),
      hidem]
  · rw [start_wmer]
    simp [BFLB_VAL_WE, Nat.testBit_or, h1]
  · rw [start_wmer]
    simp only [readl]
    exact or_and_not32 _ _

/-- C9: Ping, from any state (no guard on whether the watchdog is enabled),
read-modify-writes the reset/ping register setting only bit 0 and leaving
the other bits as read; it does not modify the configured timeout, the
match register, or the mode/enable register, and returns 0. -/
theorem ping_sets_reset_bit_only (st : DriverState) (i : Nat) (hi : i ≠ 0) :
    ((bflb_wdt_ping st).st.regs BFLB_REG_WCR).testBit 0 = true ∧
    ((bflb_wdt_ping st).st.regs BFLB_REG_WCR).testBit i =
      (readl st.regs BFLB_REG_WCR).testBit i ∧
    (bflb_wdt_ping st).st.wdd = st.wdd ∧
    (bflb_wdt_ping st).st.regs BFLB_REG_WMR = st.regs BFLB_REG_WMR ∧
    (bflb_wdt_ping st).st.regs BFLB_REG_WMER = st.regs BFLB_REG_WMER ∧
    (bflb_wdt_ping st).ret = 0 := by
  have h1 : (1 : Nat).testBit 0 = true := by decide
  have hbit : (1 : Nat).testBit i = false := by
    rw [show (1 : Nat) = 2 ^ 0 by norm_num, Nat.testBit_two_pow]
    simp [Ne.symm hi]
  refine ⟨?_, ?_, rfl, ?_, ?_, rfl⟩
  · rw [ping_wcr]
    simp [BFLB_VAL_WCR, Nat.testBit_or, h1]
  · rw [ping_wcr]
    simp only [BFLB_VAL_WCR, readl, Nat.testBit_or, hbit, Bool.or_false]
  · simp [bflb_wdt_ping, bflb_unlock_watchdog, writew, writel,
      BFLB_REG_WMR, BFLB_REG_WCR, BFLB_REG_WFAR, BFLB_REG_WSAR]
  · simp [bflb_wdt_ping, bflb_unlock_watchdog, writew, writel,
      BFLB_REG_WMER, BFLB_REG_WCR, BFLB_REG_WFAR, BFLB_REG_WSAR]

/-- Witness for C9 at the probed state with bit index 1. -/
theorem ping_sets_reset_bit_only_witness :
    (1 : Nat) ≠ 0 ∧
    (((bflb_wdt_ping probedState).st.regs BFLB_REG_WCR).testBit 0 = true ∧
     ((bflb_wdt_ping probedState).st.regs BFLB_REG_WCR).testBit 1 =
       (readl probedState.regs BFLB_REG_WCR).testBit 1 ∧
     (bflb_wdt_ping probedState).st.wdd = probedState.wdd ∧
     (bflb_wdt_ping probedState).st.regs BFLB_REG_WMR
       = probedState.regs BFLB_REG_WMR ∧
     (bflb_wdt_ping probedState).st.regs BFLB_REG_WMER
       = probedState.regs BFLB_REG_WMER ∧
     (bflb_wdt_ping probedState).ret = 0) :=
  ⟨by decide, ping_sets_reset_bit_only probedState 1 (by decide)⟩

/-- C10: GetTimeLeft never underflows: whatever the 16-bit elapsed-tick
counter holds, elapsed/4 is at most 16383 = max_timeout, the unsigned
subtraction does not wrap, and the result lies in [0, max_timeout]. -/
theorem timeleft_no_underflow (st : DriverState)
    (hmax : st.wdd.max_timeout = BFLB_MAX_SECS) :
    readw st.regs BFLB_REG_WVR / BFLB_TICKS_PER_SEC ≤ BFLB_MAX_SECS ∧
    (bflb_wdt_timeleft st).ret =
      st.wdd.max_timeout - readw st.regs BFLB_REG_WVR / BFLB_TICKS_PER_SEC ∧
    (bflb_wdt_timeleft st).ret ≤ BFLB_MAX_SECS := by
  simp only [bflb_wdt_timeleft, readw, hmax, BFLB_MAX_SECS, BFLB_TICKS_PER_SEC,
    BFLB_INT_TICKS_PER_SEC, BFLB_TICK_DIV]
  omega

/-- Witness for C10 at the state produced by initialization. -/
theorem timeleft_no_underflow_witness :
    probedState.wdd.max_timeout = BFLB_MAX_SECS ∧
    (readw probedState.regs BFLB_REG_WVR / BFLB_TICKS_PER_SEC ≤ BFLB_MAX_SECS ∧
     (bflb_wdt_timeleft probedState).ret =
       probedState.wdd.max_timeout -
         readw probedState.regs BFLB_REG_WVR / BFLB_TICKS_PER_SEC ∧
     (bflb_wdt_timeleft probedState).ret ≤ BFLB_MAX_SECS) :=
  ⟨by decide, timeleft_no_underflow probedState (by decide)⟩

end BflbWdt
